import Mathlib

/-!
# Verification of the ant-design-vue Table derived-data pipeline

Shallow embedding of `src/components/table/Table.tsx`: row-key resolution,
the sort→filter→paginate data pipeline, the aggregated change event
(`triggerOnChange`) and its event handlers, and the developer diagnostics
(`devWarning`).  The hook modules the component imports (`useSorter`,
`useFilter`, `usePagination`) are not part of the sources; the functions
taken from them are modelled from the specification and marked as such.
-/

namespace Table

/-- JavaScript `Array.prototype.slice(start, end)` on lists: negative
indices count from the end, both bounds are clamped to `[0, length]`,
and an empty list results when the clamped start is not below the end. -/
def jsSlice {α : Type} (l : List α) (start stop : Int) : List α :=
  let len : Int := l.length
  let s : Int := if start < 0 then max (len + start) 0 else min start len
  let e : Int := if stop < 0 then max (len + stop) 0 else min stop len
  (l.drop s.toNat).take (e - s).toNat

/-- The `{ current?, pageSize?, total? }` part of a pagination object;
`none` is JavaScript `undefined`. -/
structure PaginationParam where
  current : Option Int
  pageSize : Option Int
  total : Option Int
  deriving Repr, DecidableEq

/-- The empty object `{}` assigned to `changeEventInfo.pagination` when
`props.pagination === false`. -/
def emptyPaginationParam : PaginationParam :=
  { current := none, pageSize := none, total := none }

/-- JavaScript truthiness of an optional number: `undefined` and `0` are
falsy. -/
def numTruthy : Option Int → Bool
  | none => false
  | some n => n != 0

/-- Modelled from the spec: `DEFAULT_PAGE_SIZE` imported from
`hooks/usePagination` (not among the sources); the destructuring default
for `pageSize` in `pageData`. -/
def DEFAULT_PAGE_SIZE : Int := 10

/-- The diagnostic messages `devWarning` can emit in the embedded code. -/
inductive Warning where
  | currentNotPositive
  | dataLengthAsyncMode
  | rowKeyIndexDeprecated
  deriving Repr, DecidableEq

/-- `pageData` (Table.tsx lines 301–323): the visible page.  Inputs are
whether `props.pagination === false`, the merged pagination state, and the
sorted+filtered dataset (`mergedData`).  Returns the page together with
the list of `devWarning` diagnostics emitted, in order. -/
def pageData {α : Type} (paginationIsFalse : Bool) (mp : PaginationParam)
    (mergedData : List α) : List α × List Warning :=
  if paginationIsFalse || !(numTruthy mp.pageSize) then
    (mergedData, [])
  else
    let current : Int := mp.current.getD 1
    let pageSize : Int := mp.pageSize.getD DEFAULT_PAGE_SIZE
    let w0 : List Warning :=
      if current > 0 then [] else [Warning.currentNotPositive]
    let len : Int := mergedData.length
    -- `mergedData.value.length < total!`: with `total` undefined the
    -- comparison is against NaN and is false.
    let dynamic : Bool := match mp.total with
      | some t => len < t
      | none => false
    if dynamic then
      if len > pageSize then
        (jsSlice mergedData ((current - 1) * pageSize) (current * pageSize),
          w0 ++ [Warning.dataLengthAsyncMode])
      else
        (mergedData, w0)
    else
      (jsSlice mergedData ((current - 1) * pageSize) (current * pageSize), w0)

/-- A record with a payload and a nested children sequence (the tree
relation held by the configured children field). -/
structure TRecord (B : Type) where
  val : B
  children : List (TRecord B)

/-- Modelled from the spec: a `SortState` entry from `hooks/useSorter`
(not among the sources) — a per-column directive `{column, direction,
priority}`; `compare` is the column comparator in the configured
direction and `active` is false for direction `none` (§3, §4.2). -/
structure SortState (B : Type) where
  compare : B → B → Ordering
  active : Bool
  priority : Nat

/-- Modelled from the spec: the combined comparator of §4.2 — evaluate
each active state in ascending priority order and return the first
non-`eq` result. -/
def combinedCompare {B : Type} (states : List (SortState B)) (a b : B) : Ordering :=
  ((states.filter (·.active)).mergeSort (fun s t => s.priority ≤ t.priority)).foldl
    (fun o s => if o = Ordering.eq then s.compare a b else o) Ordering.eq

/-- Sort one tree: children subsequences are sorted independently with
the same comparator (§4.2). -/
def sortTree {B : Type} (le : TRecord B → TRecord B → Bool) :
    TRecord B → TRecord B
  | ⟨v, cs⟩ => ⟨v, (cs.attach.map (fun c => sortTree le c.1)).mergeSort le⟩
termination_by t => t
decreasing_by
  have h := List.sizeOf_lt_of_mem c.2
  simp [TRecord.mk.sizeOf_spec]
  omega

/-- Modelled from the spec: `getSortData` from `hooks/useSorter` (not
among the sources): for zero active states the dataset is returned
unchanged; otherwise a stable sort by the combined comparator, applied
recursively to children (§4.2).  The children-field name argument is
implicit in the tree representation. -/
def getSortData {B : Type} (data : List (TRecord B))
    (states : List (SortState B)) (childrenColumnName : String) : List (TRecord B) :=
  let _ := childrenColumnName
  if (states.filter (·.active)).isEmpty then data
  else
    let le : TRecord B → TRecord B → Bool :=
      fun a b => combinedCompare states a.val b.val ≠ Ordering.gt
    (data.map (sortTree le)).mergeSort le

/-- Modelled from the spec: a `FilterState` entry from
`hooks/useFilter` (not among the sources) — the selected-value set of a
column plus its match predicate; filter candidate values are modelled as
integers (§3, §4.3). -/
structure FilterState (B : Type) where
  selected : List Int
  onFilter : Int → B → Bool

/-- Modelled from the spec: a record matches when, for every state with
a non-empty selected set, some selected value satisfies the predicate
(AND across columns, OR within a column, §4.3). -/
def matchesFilters {B : Type} (states : List (FilterState B)) (v : B) : Bool :=
  states.all (fun s => s.selected.isEmpty || s.selected.any (fun w => s.onFilter w v))

/-- Filter one tree: a record is retained when it matches directly or
some recursively filtered descendant survives; surviving children
replace the original children, order preserved (§4.3). -/
def filterTree {B : Type} (p : B → Bool) : TRecord B → Option (TRecord B)
  | ⟨v, cs⟩ =>
    let fcs := cs.attach.filterMap (fun c => filterTree p c.1)
    if p v || !fcs.isEmpty then some ⟨v, fcs⟩ else none
termination_by t => t
decreasing_by
  have h := List.sizeOf_lt_of_mem c.2
  simp [TRecord.mk.sizeOf_spec]
  omega

/-- Modelled from the spec: `getFilterData` from `hooks/useFilter` (not
among the sources): retain matching records and ancestors of matching
records, recursively, never reordering siblings (§4.3). -/
def getFilterData {B : Type} (data : List (TRecord B))
    (states : List (FilterState B)) : List (TRecord B) :=
  data.filterMap (filterTree (matchesFilters states))

/-- A record viewed as a plain object for key resolution: a mapping from
field names to values; field values are modelled as integers and an
absent field is JavaScript `undefined`. -/
structure RecordObj where
  fields : List (String × Int)
  deriving Repr, DecidableEq

/-- JavaScript property access `record?.[name]`: `none` for an absent
field. -/
def getField (r : RecordObj) (name : String) : Option Int :=
  (r.fields.find? (fun p => p.1 == name)).map (·.2)

/-- The `rowKey` prop: a user function of `(record, index)` (with its
declared parameter count, JavaScript `Function.length`) or a field
name. -/
inductive RowKeyProp where
  | fn (f : Option RecordObj → Nat → Option Int) (arity : Nat)
  | field (name : String)

/-- `getRowKey` (Table.tsx lines 160–166): a function prop is used as
is; a field-name prop resolves to `record => record?.[name]`, tolerant
of a missing record and ignoring the index. -/
def getRowKey : RowKeyProp → Option RecordObj → Nat → Option Int
  | RowKeyProp.fn f _ => f
  | RowKeyProp.field name => fun record _index => record.bind (fun r => getField r name)

/-- The `devWarning` guard at the top of `setup` (Table.tsx lines
110–114): warn when `rowKey` is a function declaring more than one
parameter.  Nothing is thrown; `setup` continues and still resolves the
row-key function, so the result carries both the diagnostics and the
resolved key function. -/
def setupRowKey (rk : Option RowKeyProp) :
    List Warning × (Option RecordObj → Nat → Option Int) :=
  let warns := match rk with
    | some (RowKeyProp.fn _ arity) =>
      if arity > 1 then [Warning.rowKeyIndexDeprecated] else []
    | _ => []
  let resolve := fun record index => match rk with
    | some p => getRowKey p record index
    | none => none
  (warns, resolve)

/-- The `pagination` prop: absent, the literal `false`, or a
configuration object (`hasOnChange` records whether the configuration
carries an `onChange` handler). -/
inductive PaginationProp where
  | unset
  | off
  | config (hasOnChange : Bool)
  deriving Repr, DecidableEq

/-- `props.pagination === false`. -/
def PaginationProp.isOff : PaginationProp → Bool
  | PaginationProp.off => true
  | _ => false

/-- The props of the table component that the embedded logic reads.
`F` is the type of the opaque `filters` payload and `S` of the opaque
`sorter` payload, both forwarded unchanged.  `hasOnChange` records
whether `props.onChange` is configured; `scrollOnChange` whether the
`scroll && scroll.scrollToFirstRowOnChange !== false && body ref`
condition holds. -/
structure TableProps (B F S : Type) where
  dataSource : Option (List (TRecord B))
  childrenColumnNameProp : Option String
  pagination : PaginationProp
  hasOnChange : Bool
  scrollOnChange : Bool

/-- `rawData` (line 135): `props.dataSource || EMPTY_LIST`. -/
def rawData {B F S : Type} (props : TableProps B F S) : List (TRecord B) :=
  props.dataSource.getD []

/-- `childrenColumnName` (line 141): `props.childrenColumnName ||
'children'`. -/
def childrenColumnName {B F S : Type} (props : TableProps B F S) : String :=
  props.childrenColumnNameProp.getD "children"

/-- `changeEventInfo` (lines 52–65, 171): the latest-known snapshot
merged into every notification. -/
structure ChangeEventInfo (B F S : Type) where
  pagination : PaginationParam
  filters : F
  sorter : S
  filterStates : List (FilterState B)
  sorterStates : List (SortState B)

/-- A partial update passed to `triggerOnChange` (`Partial
ChangeEventInfo`): only the present fields override the snapshot. -/
structure ChangeInfoPatch (B F S : Type) where
  pagination : Option PaginationParam
  filters : Option F
  sorter : Option S
  filterStates : Option (List (FilterState B))
  sorterStates : Option (List (SortState B))

/-- The object spread `{...changeEventInfo, ...info}` (lines 179–182). -/
def mergeInfo {B F S : Type} (cei : ChangeEventInfo B F S)
    (info : ChangeInfoPatch B F S) : ChangeEventInfo B F S :=
  { pagination := info.pagination.getD cei.pagination
    filters := info.filters.getD cei.filters
    sorter := info.sorter.getD cei.sorter
    filterStates := info.filterStates.getD cei.filterStates
    sorterStates := info.sorterStates.getD cei.sorterStates }

/-- The `action` tag of a notification. -/
inductive TableAction where
  | sort
  | filter
  | paginate
  deriving Repr, DecidableEq

/-- The observable side effects `triggerOnChange` can perform, in
order: the shared pagination reset, the external pagination `onChange`
handler, the scroll-to-top view effect, and the aggregated `onChange`
notification. -/
inductive Effect (B F S : Type) where
  | resetPagination
  | paginationOnChange (current : Int) (pageSize : Option Int)
  | scrollToTop
  | emitChange (pagination : PaginationParam) (filters : F) (sorter : S)
      (currentDataSource : List (TRecord B)) (action : TableAction)

/-- `triggerOnChange` (Table.tsx lines 173–211) as the ordered list of
effects it performs: merge the patch into the snapshot; when `reset` is
set, call the pagination reset, rewrite a truthy `current` to 1 and, if
the pagination prop carries an `onChange` handler, call it with
`(1, pageSize)`; then the scroll effect; finally emit the notification
with a freshly recomputed `currentDataSource` (sort then filter applied
to the raw dataset). -/
def triggerOnChange {B F S : Type} (props : TableProps B F S)
    (cei : ChangeEventInfo B F S) (info : ChangeInfoPatch B F S)
    (action : TableAction) (reset : Bool) : List (Effect B F S) :=
  let changeInfo := mergeInfo cei info
  let resetStep :
      ChangeEventInfo B F S × List (Effect B F S) :=
    if reset then
      let changeInfo :=
        if numTruthy changeInfo.pagination.current then
          { changeInfo with
            pagination := { changeInfo.pagination with current := some 1 } }
        else changeInfo
      let pagEffects : List (Effect B F S) :=
        match props.pagination with
        | PaginationProp.config true =>
          [Effect.paginationOnChange 1 changeInfo.pagination.pageSize]
        | _ => []
      (changeInfo, Effect.resetPagination :: pagEffects)
    else (changeInfo, [])
  let changeInfo := resetStep.1
  let scrollEffects : List (Effect B F S) :=
    if props.scrollOnChange then [Effect.scrollToTop] else []
  let emitEffects : List (Effect B F S) :=
    if props.hasOnChange then
      [Effect.emitChange changeInfo.pagination changeInfo.filters changeInfo.sorter
        (getFilterData
          (getSortData (rawData props) changeInfo.sorterStates (childrenColumnName props))
          changeInfo.filterStates)
        action]
    else []
  resetStep.2 ++ scrollEffects ++ emitEffects

/-- An all-`none` patch, the base of each handler's argument. -/
def emptyPatch {B F S : Type} : ChangeInfoPatch B F S :=
  { pagination := none, filters := none, sorter := none
    filterStates := none, sorterStates := none }

/-- `onSorterChange` (lines 220–229): forwards the sorter payload and
states, action `sort`, no reset. -/
def onSorterChange {B F S : Type} (props : TableProps B F S)
    (cei : ChangeEventInfo B F S) (sorter : S)
    (sorterStates : List (SortState B)) : List (Effect B F S) :=
  triggerOnChange props cei
    { (emptyPatch : ChangeInfoPatch B F S) with
      sorter := some sorter, sorterStates := some sorterStates }
    TableAction.sort false

/-- `onFilterChange` (lines 244–253): forwards the filters payload and
states, action `filter`, with reset. -/
def onFilterChange {B F S : Type} (props : TableProps B F S)
    (cei : ChangeEventInfo B F S) (filters : F)
    (filterStates : List (FilterState B)) : List (Effect B F S) :=
  triggerOnChange props cei
    { (emptyPatch : ChangeInfoPatch B F S) with
      filters := some filters, filterStates := some filterStates }
    TableAction.filter true

/-- `onPaginationChange` (lines 271–278): spreads the snapshot's
pagination and overrides `current` and `pageSize`, action `paginate`,
reset left at its default `false`. -/
def onPaginationChange {B F S : Type} (props : TableProps B F S)
    (cei : ChangeEventInfo B F S) (current pageSize : Int) :
    List (Effect B F S) :=
  triggerOnChange props cei
    { (emptyPatch : ChangeInfoPatch B F S) with
      pagination := some
        { cei.pagination with current := some current, pageSize := some pageSize } }
    TableAction.paginate false

/-- Modelled from the spec: `getPaginationParam` from
`hooks/usePagination` (not among the sources) — projects the merged
pagination state onto the `{current, pageSize, total}` notification
parameter (§3 ChangeEvent, §6). -/
def getPaginationParam (mp : PaginationParam) : PaginationParam :=
  { current := mp.current, pageSize := mp.pageSize, total := mp.total }

/-- The `watchEffect` snapshot (Table.tsx lines 286–298): the
snapshot's pagination is the empty object when `props.pagination ===
false`, otherwise the pagination parameter of the merged state. -/
def changeEventSnapshot {B F S : Type} (props : TableProps B F S)
    (sorters : S) (sortStates : List (SortState B)) (filters : F)
    (filterStates : List (FilterState B)) (mergedPagination : PaginationParam) :
    ChangeEventInfo B F S :=
  { pagination :=
      if props.pagination.isOff then emptyPaginationParam
      else getPaginationParam mergedPagination
    filters := filters
    sorter := sorters
    filterStates := filterStates
    sorterStates := sortStates }

/-- `sortedData` (lines 239–241). -/
def sortedData {B F S : Type} (props : TableProps B F S)
    (sortStates : List (SortState B)) : List (TRecord B) :=
  getSortData (rawData props) sortStates (childrenColumnName props)

/-- `mergedData` (line 263): the filter engine applied to the sorted
data. -/
def mergedData {B F S : Type} (props : TableProps B F S)
    (sortStates : List (SortState B)) (filterStates : List (FilterState B)) :
    List (TRecord B) :=
  getFilterData (sortedData props sortStates) filterStates

/-- The visible page: `pageData` applied to `mergedData` with the
merged pagination state (lines 301–323 wired to line 263). -/
def visibleData {B F S : Type} (props : TableProps B F S)
    (sortStates : List (SortState B)) (filterStates : List (FilterState B))
    (mergedPagination : PaginationParam) : List (TRecord B) × List Warning :=
  pageData props.pagination.isOff mergedPagination
    (mergedData props sortStates filterStates)

/-- The render guard for the pagination widget (Table.tsx line 389):
`pagination !== false && mergedPagination.value?.total`. -/
def paginationNodeRendered {B F S : Type} (props : TableProps B F S)
    (mergedPagination : PaginationParam) : Bool :=
  !props.pagination.isOff && numTruthy mergedPagination.total

/-- The user interactions that reach `triggerOnChange`. -/
inductive TableEvent (B F S : Type) where
  | sortEv (sorter : S) (sorterStates : List (SortState B))
  | filterEv (filters : F) (filterStates : List (FilterState B))
  | paginateEv (current pageSize : Int)

/-- Dispatch of an interaction to its handler. -/
def handleEvent {B F S : Type} (props : TableProps B F S)
    (cei : ChangeEventInfo B F S) : TableEvent B F S → List (Effect B F S)
  | TableEvent.sortEv sorter ss => onSorterChange props cei sorter ss
  | TableEvent.filterEv filters fs => onFilterChange props cei filters fs
  | TableEvent.paginateEv current pageSize =>
    onPaginationChange props cei current pageSize

/-- Modelled from the spec: pagination events are reported by the
pagination widget (§6), and the widget is only rendered behind the
guard of Table.tsx line 389; sort and filter interactions come from the
column headers and are always available. -/
def eventPossible {B F S : Type} (props : TableProps B F S)
    (mergedPagination : PaginationParam) : TableEvent B F S → Prop
  | TableEvent.paginateEv _ _ =>
    paginationNodeRendered props mergedPagination = true
  | _ => True

/-! ## Sanity checks on concrete inputs -/

example : pageData false { current := some 1, pageSize := some 2, total := none }
    [10, 20, 30] = ([10, 20], []) := by decide

example : pageData false { current := some 2, pageSize := some 2, total := some 3 }
    [10, 20, 30] = ([30], []) := by decide

/-! ## C4: normal slicing -/

/-- C4: when the sorted+filtered dataset is at least as long as the
configured `total` and `current` and `pageSize` are positive, the
visible page is `dataset.slice((current-1)*pageSize, current*pageSize)`. -/
theorem pageData_slices_when_total_covered {α : Type} (data : List α)
    (c p t : Int) (hc : 0 < c) (hp : 0 < p) (ht : t ≤ (data.length : Int)) :
    (pageData false { current := some c, pageSize := some p, total := some t }
        data).1
      = jsSlice data ((c - 1) * p) (c * p) := by
  have h1 : p ≠ 0 := by omega
  have h2 : ¬ ((data.length : Int) < t) := by omega
  simp [pageData, numTruthy, h1, h2]

/-- C4 witness: the spec scenario `pageSize = 2`, `current = 2`, length
3 — the page is the single record at index 2. -/
theorem pageData_slices_when_total_covered_witness :
    (0 : Int) < 2 ∧ (3 : Int) ≤ ((3 : Nat) : Int) ∧
      (pageData false { current := some 2, pageSize := some 2, total := some 3 }
          [10, 20, 30]).1 = [30] := by
  refine ⟨by decide, by decide, ?_⟩
  have h := pageData_slices_when_total_covered [10, 20, 30] 2 2 3
    (by decide) (by decide) (by simp)
  rw [h]
  decide

/-! ## C1: externally supplied total larger than the loaded data -/

/-- C1 counterexample: the spec scenario `total = 100`, loaded length 3,
`pageSize = 10` — the page is indeed the whole loaded dataset unsliced,
but the diagnostics list is empty: no warning is emitted in this branch,
refuting the claim that a diagnostic accompanies the unsliced return. -/
theorem pageData_async_small_branch_cex :
    pageData false { current := some 1, pageSize := some 10, total := some 100 }
      [0, 1, 2] = ([0, 1, 2], []) := by decide

/-- C1 amended: when the supplied `total` exceeds the loaded length and
`current` is positive, a loaded length not exceeding `pageSize` yields
the whole dataset unsliced with no diagnostic at all, while a loaded
length exceeding `pageSize` yields the normal slice together with the
async-configuration diagnostic. -/
theorem pageData_async_branches {α : Type} (data : List α) (c p t : Int)
    (hc : 0 < c) (hlt : (data.length : Int) < t) :
    ((data.length : Int) ≤ p →
      pageData false { current := some c, pageSize := some p, total := some t }
          data = (data, []))
    ∧ (p < (data.length : Int) → 0 < p →
      pageData false { current := some c, pageSize := some p, total := some t }
          data
        = (jsSlice data ((c - 1) * p) (c * p), [Warning.dataLengthAsyncMode])) := by
  constructor
  · intro hle
    by_cases hp0 : p = 0
    · subst hp0
      simp [pageData, numTruthy]
    · simp [pageData, numTruthy, hp0, hlt, hc]
      omega
  · intro hgt hp
    have hp0 : p ≠ 0 := by omega
    simp [pageData, numTruthy, hp0, hlt, hc, hgt]

/-- C1 amended witness: a dataset of length 3 with `total = 100` and
`pageSize = 10` is returned whole with no diagnostic. -/
theorem pageData_async_branches_witness :
    ((0 : Int) < 1) ∧ (((3 : Nat) : Int) < 100) ∧
      pageData false { current := some 1, pageSize := some 10, total := some 100 }
        [5, 6, 7] = ([5, 6, 7], []) := by
  refine ⟨by decide, by simp, ?_⟩
  exact (pageData_async_branches [5, 6, 7] 1 10 100 (by decide) (by simp)).1
    (by simp)

/-! ## C7: non-positive current -/

/-- C7 counterexample: with `current = 0`, `pageSize = 10` and a loaded
dataset of 3 records, the positivity diagnostic is emitted and nothing
is thrown, but the visible page is empty — not the most-permissive
"show everything" degradation the claim describes. -/
theorem pageData_zero_current_cex :
    pageData false { current := some 0, pageSize := some 10, total := none }
      [7, 8, 9] = ([], [Warning.currentNotPositive]) := by decide

/-- C7 amended: for `current = 0` and a positive `pageSize` (no dynamic
`total`), the positivity diagnostic is emitted and the embedded
function returns normally, but the page is the empty JavaScript slice
`slice(-pageSize, 0)`, not the full dataset. -/
theorem pageData_zero_current {α : Type} (data : List α) (p : Int) (hp : 0 < p) :
    pageData false { current := some 0, pageSize := some p, total := none } data
      = ([], [Warning.currentNotPositive]) := by
  have hp0 : p ≠ 0 := by omega
  simp [pageData, numTruthy, hp0, jsSlice, hp]

/-- C7 amended witness. -/
theorem pageData_zero_current_witness :
    (0 : Int) < 5 ∧
      pageData false { current := some 0, pageSize := some 5, total := none }
        [1, 2, 3] = ([], [Warning.currentNotPositive]) :=
  ⟨by decide, pageData_zero_current [1, 2, 3] 5 (by decide)⟩

/-! ## C9: falsy pageSize -/

/-- C9: with pagination not the literal `false` but a falsy `pageSize`
(`undefined` or `0`), the page is the whole dataset with no diagnostics
— identical to the pagination-disabled result. -/
theorem pageData_falsy_pageSize {α : Type} (mp : PaginationParam)
    (data : List α) (h : mp.pageSize = none ∨ mp.pageSize = some 0) :
    pageData false mp data = (data, [])
    ∧ pageData false mp data = pageData true mp data := by
  rcases h with h | h <;> simp [pageData, numTruthy, h]

/-- C9 witness: `pageSize = 0` with a non-positive `current` present —
no slicing and no positivity diagnostic. -/
theorem pageData_falsy_pageSize_witness :
    ({ current := some 0, pageSize := some 0, total := some 50 }
        : PaginationParam).pageSize = some 0 ∧
      pageData false { current := some 0, pageSize := some 0, total := some 50 }
        [4, 5] = ([4, 5], []) :=
  ⟨rfl, (pageData_falsy_pageSize _ [4, 5] (Or.inr rfl)).1⟩

/-! ## C6: row-key resolution -/

example : getRowKey (RowKeyProp.field "id") (some ⟨[("id", 42)]⟩) 0 = some 42 := by
  decide

/-- C6: a function `rowKey` prop is applied to `(record, index)`; a
field-name prop resolves to the record's value at that field, yields
`undefined` on a missing record, and ignores the index. -/
theorem getRowKey_resolution :
    (∀ (f : Option RecordObj → Nat → Option Int) (arity : Nat)
        (record : Option RecordObj) (index : Nat),
      getRowKey (RowKeyProp.fn f arity) record index = f record index)
    ∧ (∀ (name : String) (r : RecordObj) (index : Nat),
      getRowKey (RowKeyProp.field name) (some r) index = getField r name)
    ∧ (∀ (name : String) (index : Nat),
      getRowKey (RowKeyProp.field name) none index = none) :=
  ⟨fun _ _ _ _ => rfl, fun _ _ _ => rfl, fun _ _ => rfl⟩

/-! ## C8: setup warning for a rowKey function wanting extra context -/

/-- C8: a `rowKey` function declaring more positional parameters than
`(record, index)` makes `setup` emit the deprecation diagnostic while
still returning the resolved key function unchanged — execution
continues and nothing is thrown (the embedding is a total function). -/
theorem setupRowKey_warns_and_continues
    (f : Option RecordObj → Nat → Option Int) (arity : Nat)
    (h : arity > 2) :
    (setupRowKey (some (RowKeyProp.fn f arity))).1
        = [Warning.rowKeyIndexDeprecated]
    ∧ (setupRowKey (some (RowKeyProp.fn f arity))).2
        = getRowKey (RowKeyProp.fn f arity) := by
  have h1 : arity > 1 := by omega
  constructor
  · simp [setupRowKey, h1]
  · rfl

/-- C8 witness: a three-parameter key function. -/
theorem setupRowKey_warns_and_continues_witness :
    3 > 2 ∧
      (setupRowKey (some (RowKeyProp.fn (fun _ _ => some 0) 3))).1
        = [Warning.rowKeyIndexDeprecated] :=
  ⟨by decide,
    (setupRowKey_warns_and_continues (fun _ _ => some 0) 3 (by decide)).1⟩

/-! ## Observations on effect traces -/

/-- The pagination arguments of the notifications in an effect trace. -/
def emittedParams {B F S : Type} (effects : List (Effect B F S)) :
    List PaginationParam :=
  effects.filterMap fun e => match e with
    | Effect.emitChange p _ _ _ _ => some p
    | _ => none

/-- The `currentDataSource` arguments of the notifications in an effect
trace. -/
def emittedDataSources {B F S : Type} (effects : List (Effect B F S)) :
    List (List (TRecord B)) :=
  effects.filterMap fun e => match e with
    | Effect.emitChange _ _ _ d _ => some d
    | _ => none

/-- How often the shared pagination reset is invoked in a trace. -/
def resetCount {B F S : Type} (effects : List (Effect B F S)) : Nat :=
  (effects.filter fun e => match e with
    | Effect.resetPagination => true
    | _ => false).length

/-- Normal form of the notification parameter: `triggerOnChange` emits
exactly one notification when `props.onChange` is configured, carrying
the merged pagination with `current` rewritten to 1 exactly when reset
was requested and the merged `current` was truthy. -/
theorem emittedParams_triggerOnChange {B F S : Type} (props : TableProps B F S)
    (cei : ChangeEventInfo B F S) (info : ChangeInfoPatch B F S)
    (action : TableAction) (reset : Bool) :
    emittedParams (triggerOnChange props cei info action reset)
      = if props.hasOnChange then
          [if reset && numTruthy (mergeInfo cei info).pagination.current then
            { (mergeInfo cei info).pagination with current := some 1 }
          else (mergeInfo cei info).pagination]
        else [] := by
  cases reset <;>
    cases htr : numTruthy (mergeInfo cei info).pagination.current <;>
    cases hs : props.scrollOnChange <;>
    cases ho : props.hasOnChange <;>
    rcases hpg : props.pagination with _ | _ | b <;>
    first
    | (cases b <;> simp [triggerOnChange, emittedParams, hpg, htr, hs, ho])
    | simp [triggerOnChange, emittedParams, hpg, htr, hs, ho]

/-- Normal form of the recomputed `currentDataSource`: the single
notification (when configured) carries the sort-then-filter composition
over the raw dataset at the merged states. -/
theorem emittedDataSources_triggerOnChange {B F S : Type}
    (props : TableProps B F S) (cei : ChangeEventInfo B F S)
    (info : ChangeInfoPatch B F S) (action : TableAction) (reset : Bool) :
    emittedDataSources (triggerOnChange props cei info action reset)
      = if props.hasOnChange then
          [getFilterData
            (getSortData (rawData props) (mergeInfo cei info).sorterStates
              (childrenColumnName props))
            (mergeInfo cei info).filterStates]
        else [] := by
  cases reset <;>
    cases htr : numTruthy (mergeInfo cei info).pagination.current <;>
    cases hs : props.scrollOnChange <;>
    cases ho : props.hasOnChange <;>
    rcases hpg : props.pagination with _ | _ | b <;>
    first
    | (cases b <;> simp [triggerOnChange, emittedDataSources, hpg, htr, hs, ho])
    | simp [triggerOnChange, emittedDataSources, hpg, htr, hs, ho]

/-- The shared pagination reset runs exactly when reset is requested. -/
theorem resetCount_triggerOnChange {B F S : Type} (props : TableProps B F S)
    (cei : ChangeEventInfo B F S) (info : ChangeInfoPatch B F S)
    (action : TableAction) (reset : Bool) :
    resetCount (triggerOnChange props cei info action reset)
      = if reset then 1 else 0 := by
  cases reset <;>
    cases htr : numTruthy (mergeInfo cei info).pagination.current <;>
    cases hs : props.scrollOnChange <;>
    cases ho : props.hasOnChange <;>
    rcases hpg : props.pagination with _ | _ | b <;>
    first
    | (cases b <;> simp [triggerOnChange, resetCount, hpg, htr, hs, ho])
    | simp [triggerOnChange, resetCount, hpg, htr, hs, ho]

/-- Concrete props used by the witnesses: pagination configured with an
`onChange` handler, external `onChange` configured, no scroll effect. -/
def propsW : TableProps Nat Nat Nat :=
  { dataSource := some [⟨1, []⟩, ⟨2, []⟩]
    childrenColumnNameProp := none
    pagination := PaginationProp.config true
    hasOnChange := true
    scrollOnChange := false }

/-- Concrete props with `pagination` set to the literal `false`. -/
def propsOffW : TableProps Nat Nat Nat :=
  { propsW with pagination := PaginationProp.off }

/-- Concrete snapshot used by the witnesses. -/
def ceiW : ChangeEventInfo Nat Nat Nat :=
  { pagination := { current := some 2, pageSize := some 5, total := none }
    filters := 0
    sorter := 0
    filterStates := []
    sorterStates := [] }

/-! ## C2: reset discipline of the three handlers -/

/-- C2: a filter change invokes the pagination reset exactly once and
its notification carries `current = 1`; a sort change and a pagination
change never invoke the reset, and their notifications keep the
snapshot's `current` (resp. carry the freshly reported `current`)
untouched. -/
theorem changeHandlers_reset_discipline {B F S : Type}
    (props : TableProps B F S) (cei : ChangeEventInfo B F S)
    (filters : F) (fs : List (FilterState B)) (sorter : S)
    (ss : List (SortState B)) (c ps : Int)
    (ho : props.hasOnChange = true)
    (hc : numTruthy cei.pagination.current = true) :
    (resetCount (onFilterChange props cei filters fs) = 1
      ∧ emittedParams (onFilterChange props cei filters fs)
          = [{ cei.pagination with current := some 1 }])
    ∧ (resetCount (onSorterChange props cei sorter ss) = 0
      ∧ emittedParams (onSorterChange props cei sorter ss) = [cei.pagination])
    ∧ (resetCount (onPaginationChange props cei c ps) = 0
      ∧ emittedParams (onPaginationChange props cei c ps)
          = [{ cei.pagination with current := some c, pageSize := some ps }]) := by
  refine ⟨⟨?_, ?_⟩, ⟨?_, ?_⟩, ⟨?_, ?_⟩⟩
  · rw [onFilterChange, resetCount_triggerOnChange]; rfl
  · rw [onFilterChange, emittedParams_triggerOnChange]
    simp [mergeInfo, emptyPatch, ho, hc]
  · rw [onSorterChange, resetCount_triggerOnChange]; rfl
  · rw [onSorterChange, emittedParams_triggerOnChange]
    simp [mergeInfo, emptyPatch, ho]
  · rw [onPaginationChange, resetCount_triggerOnChange]; rfl
  · rw [onPaginationChange, emittedParams_triggerOnChange]
    simp [mergeInfo, emptyPatch, ho]

/-- C2 witness: with a snapshot `current = 2`, a filter change resets
and reports `current = 1`. -/
theorem changeHandlers_reset_discipline_witness :
    propsW.hasOnChange = true
    ∧ numTruthy ceiW.pagination.current = true
    ∧ emittedParams (onFilterChange propsW ceiW 0 [])
        = [{ current := some 1, pageSize := some 5, total := none }]
    ∧ emittedParams (onSorterChange propsW ceiW 0 [])
        = [{ current := some 2, pageSize := some 5, total := none }] := by
  refine ⟨rfl, rfl, ?_, ?_⟩
  · exact (changeHandlers_reset_discipline propsW ceiW 0 [] 0 [] 3 7 rfl rfl).1.2
  · exact (changeHandlers_reset_discipline propsW ceiW 0 [] 0 [] 3 7 rfl rfl).2.1.2

/-! ## C3: ordering inside a resetting triggerOnChange -/

/-- C3: with reset requested, a truthy merged `current`, a pagination
configuration carrying an `onChange` handler and an external `onChange`:
the trace is exactly the pagination reset first, then the external
pagination handler called with `(1, pageSize)`, then the optional scroll
effect, and last the notification whose pagination carries
`current = 1`. -/
theorem triggerOnChange_reset_ordering {B F S : Type}
    (props : TableProps B F S) (cei : ChangeEventInfo B F S)
    (info : ChangeInfoPatch B F S) (action : TableAction)
    (hpag : props.pagination = PaginationProp.config true)
    (ho : props.hasOnChange = true)
    (hc : numTruthy (mergeInfo cei info).pagination.current = true) :
    triggerOnChange props cei info action true
      = Effect.resetPagination
        :: Effect.paginationOnChange 1 (mergeInfo cei info).pagination.pageSize
        :: ((if props.scrollOnChange then [Effect.scrollToTop] else [])
          ++ [Effect.emitChange
                { (mergeInfo cei info).pagination with current := some 1 }
                (mergeInfo cei info).filters (mergeInfo cei info).sorter
                (getFilterData
                  (getSortData (rawData props) (mergeInfo cei info).sorterStates
                    (childrenColumnName props))
                  (mergeInfo cei info).filterStates)
                action]) := by
  simp [triggerOnChange, hpag, ho, hc]

/-- C3 witness: the concrete trace of a resetting filter change. -/
theorem triggerOnChange_reset_ordering_witness :
    propsW.pagination = PaginationProp.config true
    ∧ propsW.hasOnChange = true
    ∧ numTruthy (mergeInfo ceiW (emptyPatch : ChangeInfoPatch Nat Nat Nat)).pagination.current
        = true
    ∧ triggerOnChange propsW ceiW emptyPatch TableAction.filter true
        = Effect.resetPagination
          :: Effect.paginationOnChange 1 (some 5)
          :: [Effect.emitChange
                { current := some 1, pageSize := some 5, total := none }
                (mergeInfo ceiW emptyPatch).filters
                (mergeInfo ceiW emptyPatch).sorter
                (getFilterData
                  (getSortData (rawData propsW)
                    (mergeInfo ceiW emptyPatch).sorterStates
                    (childrenColumnName propsW))
                  (mergeInfo ceiW emptyPatch).filterStates)
                TableAction.filter] := by
  refine ⟨rfl, rfl, rfl, ?_⟩
  exact triggerOnChange_reset_ordering propsW ceiW emptyPatch TableAction.filter
    rfl rfl rfl

/-! ## C5: sort before filter, pagination last, unpaginated snapshot -/

/-- C5: the displayed data pipeline applies the sort engine to the raw
dataset first and the filter engine to the sorted result second, with
pagination applied last to the filtered result, and every emitted
notification's `currentDataSource` is exactly this sorted+filtered full
dataset, unpaginated. -/
theorem pipeline_sort_then_filter {B F S : Type} (props : TableProps B F S)
    (ss : List (SortState B)) (fs : List (FilterState B))
    (mp : PaginationParam) (cei : ChangeEventInfo B F S)
    (info : ChangeInfoPatch B F S) (action : TableAction) (reset : Bool)
    (ho : props.hasOnChange = true) :
    mergedData props ss fs
        = getFilterData (getSortData (rawData props) ss (childrenColumnName props)) fs
    ∧ visibleData props ss fs mp
        = pageData props.pagination.isOff mp (mergedData props ss fs)
    ∧ emittedDataSources (triggerOnChange props cei info action reset)
        = [mergedData props (mergeInfo cei info).sorterStates
            (mergeInfo cei info).filterStates] := by
  refine ⟨rfl, rfl, ?_⟩
  rw [emittedDataSources_triggerOnChange]
  simp [ho, mergedData, sortedData]

/-- C5 witness: a sort change's notification carries the unpaginated
sorted+filtered dataset. -/
theorem pipeline_sort_then_filter_witness :
    propsW.hasOnChange = true
    ∧ emittedDataSources (triggerOnChange propsW ceiW emptyPatch TableAction.sort false)
        = [mergedData propsW (mergeInfo ceiW (emptyPatch : ChangeInfoPatch Nat Nat Nat)).sorterStates
            (mergeInfo ceiW emptyPatch).filterStates] :=
  ⟨rfl, (pipeline_sort_then_filter propsW [] [] emptyPaginationParam ceiW
    emptyPatch TableAction.sort false rfl).2.2⟩

/-! ## C10: notifications while pagination is the literal false -/

/-- C10: every notification emitted while `props.pagination` is the
literal `false` carries the empty pagination object: sort and filter
changes forward the snapshot's `{}` untouched (the reset path leaves an
absent `current` alone and skips the pagination handler), and paginate
events are impossible because the pagination widget is not rendered. -/
theorem offPagination_empty_param {B F S : Type} (props : TableProps B F S)
    (sorters : S) (ss : List (SortState B)) (filters : F)
    (fsStates : List (FilterState B)) (mp : PaginationParam)
    (hoff : props.pagination = PaginationProp.off)
    (e : TableEvent B F S) (hp : eventPossible props mp e) :
    (emittedParams (handleEvent props
        (changeEventSnapshot props sorters ss filters fsStates mp) e)).all
      (fun p => p == emptyPaginationParam) = true := by
  cases e with
  | paginateEv c psz =>
    exfalso
    simp [eventPossible, paginationNodeRendered, hoff, PaginationProp.isOff] at hp
  | sortEv s sst =>
    rw [handleEvent, onSorterChange, emittedParams_triggerOnChange]
    cases ho : props.hasOnChange <;>
      simp [mergeInfo, emptyPatch, changeEventSnapshot, hoff, PaginationProp.isOff]
  | filterEv f fst =>
    rw [handleEvent, onFilterChange, emittedParams_triggerOnChange]
    cases ho : props.hasOnChange <;>
      simp [mergeInfo, emptyPatch, changeEventSnapshot, hoff,
        PaginationProp.isOff, emptyPaginationParam, numTruthy]

/-- C10 witness: a filter change with pagination `false` notifies with
the empty pagination object. -/
theorem offPagination_empty_param_witness :
    propsOffW.pagination = PaginationProp.off
    ∧ eventPossible propsOffW emptyPaginationParam
        (TableEvent.filterEv (B := Nat) (S := Nat) 0 [])
    ∧ (emittedParams (handleEvent propsOffW
        (changeEventSnapshot propsOffW 0 [] 0 [] emptyPaginationParam)
        (TableEvent.filterEv 0 []))).all
        (fun p => p == emptyPaginationParam) = true := by
  refine ⟨rfl, trivial, ?_⟩
  exact offPagination_empty_param propsOffW 0 [] 0 [] emptyPaginationParam rfl
    (TableEvent.filterEv 0 []) trivial

end Table
